import Mathlib

/-!
Verification of the deterministic scoring engine and the external-analysis
orchestration layer of the counter-propaganda detector backend.

The Python source (backend/app.py, backend/llm_analyzer.py,
backend/llm_service.py) is shallowly embedded below: text is `List Char`
(Python `str`), machine floats are modelled by `ℚ`, Python dictionaries with
a fixed key set become structures with `Option` fields where a key may be
absent, functions that may raise become `Except`/`Option` valued, and
`json.loads` is modelled by an executable recursive-descent JSON reader for
the JSON fragment the system exchanges (objects, arrays, strings with the
common single-character escapes, decimal numbers, booleans, null).
-/

namespace Detector

/-- Python `str.lower` restricted to the ASCII texts the lexicons use
(`app.py`, `text.lower()`). -/
def pyLower (s : List Char) : List Char := s.map Char.toLower

/-- Whitespace recognised by Python `str.strip()` / JSON parsing on the
inputs in play. -/
def isPyWs (c : Char) : Bool :=
  c = ' ' || c = '\n' || c = '\t' || c = '\r'

/-- Python `str.strip()`. -/
def pyStrip (s : List Char) : List Char :=
  ((s.dropWhile isPyWs).reverse.dropWhile isPyWs).reverse

/-- Whether `kw` occurs in `text` at offset `i`. -/
def occursAtB (text kw : List Char) (i : ℕ) : Bool :=
  kw.isPrefixOf (text.drop i)

/-- Python substring test `kw in text`. -/
def containsSub (text kw : List Char) : Bool :=
  (List.range (text.length + 1)).any (occursAtB text kw)

/-- Forward scan of Python `str.find(kw, start)`: try offsets
`start, start+1, …` until a match or the end of `text`. -/
def pyStrFindAux (text kw : List Char) : ℕ → ℕ → Option ℕ
  | _, 0 => none
  | start, fuel + 1 =>
    if start ≤ text.length then
      if occursAtB text kw start then some start
      else pyStrFindAux text kw (start + 1) fuel
    else none

/-- Python `text.find(kw, start)`, returning `none` for Python's `-1`. -/
def pyStrFind (text kw : List Char) (start : ℕ) : Option ℕ :=
  pyStrFindAux text kw start (text.length + 1 - start)

/-- The scan loop of `PropagandaDetector.find_keyword_positions`
(`app.py` lines 268-276): repeatedly `find` from `start`, record
`(pos, pos + len(keyword))`, resume from `pos + 1`. -/
def fkpAux (text kw : List Char) : ℕ → ℕ → List (ℕ × ℕ)
  | _, 0 => []
  | start, fuel + 1 =>
    match pyStrFind text kw start with
    | none => []
    | some pos => (pos, pos + kw.length) :: fkpAux text kw (pos + 1) fuel

/-- `PropagandaDetector.find_keyword_positions(text, keyword)`
(`app.py` lines 266-276). The identical inline loop also appears in
`detect_propaganda_techniques` (lines 287-294). -/
def find_keyword_positions (text kw : List Char) : List (ℕ × ℕ) :=
  fkpAux text kw 0 (text.length + 1)

/-- Non-overlapping occurrence scan of Python `str.count`: after a match
at `pos` the scan resumes at `pos + max 1 (len kw)`. -/
def pyCountAux (text kw : List Char) : ℕ → ℕ → ℕ
  | _, 0 => 0
  | start, fuel + 1 =>
    match pyStrFind text kw start with
    | none => 0
    | some pos => 1 + pyCountAux text kw (pos + max 1 kw.length) fuel

/-- Python `text.count(kw)` (non-overlapping). -/
def pyCount (text kw : List Char) : ℕ :=
  pyCountAux text kw 0 (text.length + 1)

/-- Left-to-right non-overlapping scan of Python `str.replace(old, new)`. -/
def pyReplaceAux (old new : List Char) : ℕ → List Char → List Char
  | 0, s => s
  | fuel + 1, s =>
    if old ≠ [] ∧ old.isPrefixOf s then new ++ pyReplaceAux old new fuel (s.drop old.length)
    else
      match s with
      | [] => []
      | c :: rest => c :: pyReplaceAux old new fuel rest

/-- Python `s.replace(old, new)` for the non-empty `old` patterns the code
uses. -/
def pyReplace (s old new : List Char) : List Char :=
  pyReplaceAux old new (s.length + 1) s

/-- One step of Python `str.title`: a letter following a non-letter is
uppercased, a letter following a letter is lowercased. -/
def pyTitleAux : Bool → List Char → List Char
  | _, [] => []
  | prevAlpha, c :: rest =>
    (if c.isAlpha then (if prevAlpha then c.toLower else c.toUpper) else c)
      :: pyTitleAux c.isAlpha rest

/-- Python `s.title()` on the ASCII technique names. -/
def pyTitle (s : List Char) : List Char := pyTitleAux false s

/-! ### Lexicon (`PropagandaDetector.load_models`, `app.py` lines 65-87) -/

def emotional_high : List String :=
  ["outrageous", "shocking", "devastating", "incredible", "unbelievable",
   "terrifying", "catastrophic", "nightmare", "horrifying", "appalling"]

def emotional_medium : List String :=
  ["concerning", "troubling", "alarming", "disturbing", "unsettling",
   "worrying", "dangerous", "serious", "critical"]

def emotional_subtle : List String :=
  ["questionable", "problematic", "unfortunate", "disappointing",
   "misleading", "concerning", "notable"]

def urgency_high : List String :=
  ["immediately", "urgent", "crisis", "emergency", "act now",
   "time is running out", "before it\x27s too late", "right now", "this instant"]

def urgency_medium : List String :=
  ["soon", "quickly", "don\x27t delay", "limited time", "hurry", "fast",
   "prompt action", "time-sensitive"]

def urgency_subtle : List String :=
  ["consider", "think about", "when convenient", "at your earliest",
   "worth noting", "keep in mind"]

def fear_triggers : List String :=
  ["threat", "danger", "risk", "harm", "damage", "destroy", "ruin",
   "collapse", "failure", "loss", "attack", "invasion"]

def loaded : List String :=
  ["terrorist", "extremist", "radical", "dangerous", "threat", "enemy",
   "traitor", "corrupt", "evil", "villain"]

def absolute : List String :=
  ["always", "never", "all", "none", "every", "completely", "totally",
   "entirely", "absolutely", "definitely", "certainly"]

/-- `self.propaganda_techniques` (`app.py` lines 78-87), in dictionary
insertion order. -/
def propaganda_techniques : List (String × List String) :=
  [("bandwagon",
    ["everyone", "popular", "trending", "majority", "most people",
     "standing united", "unite", "together"]),
   ("fear_mongering",
    ["dangerous", "threat", "risk", "fear", "scared", "terrifying",
     "too late", "before it\x27s too late"]),
   ("strawman",
    ["claims that", "says that", "believes that", "thinks that"]),
   ("loaded_language",
    ["devastating", "outrageous", "shocking", "incredible", "lies",
     "hiding the truth", "expose"]),
   ("appeal_to_authority",
    ["experts say", "studies show", "research proves", "scientists agree"]),
   ("conspiracy_theory",
    ["hiding", "cover up", "conspiracy", "truth",
     "they don\x27t want you to know"]),
   ("call_to_action",
    ["act now", "take action", "stand up", "fight back", "protect"]),
   ("us_vs_them",
    ["our freedom", "our rights", "they", "them", "the government",
     "establishment"])]

/-! ### Technique detection and emotional triggers -/

/-- A detected Technique Finding (`detect_propaganda_techniques` output
record). -/
structure Finding where
  technique : String
  keyword : String
  confidence : ℚ
  positions : List (ℕ × ℕ)
deriving DecidableEq

/-- `PropagandaDetector.detect_propaganda_techniques(text)` (`app.py` lines
278-304): for every technique and keyword found in the lower-cased text,
record a finding with the title-cased technique name, static confidence
0.8 and all (overlap-permitting) keyword positions. The inline position
loop is the same loop as `find_keyword_positions`. -/
def detect_propaganda_techniques (text : String) : List Finding :=
  let tl := pyLower text.data
  propaganda_techniques.flatMap fun p =>
    p.2.filterMap fun kw =>
      if containsSub tl kw.data then
        let positions := find_keyword_positions tl kw.data
        if positions.isEmpty then none
        else some ⟨⟨pyTitle (pyReplace p.1.data "_".data " ".data)⟩, kw, 4/5, positions⟩
      else none

/-- One entry of the `analyze_emotional_triggers` result lists; the fear
and pressure entries carry no `intensity` key, modelled as `none`. -/
structure TriggerRecord where
  trigger : String
  intensity : Option String
  impact : String
  positions : List (ℕ × ℕ)
deriving DecidableEq

/-- The four trigger lists built by `analyze_emotional_triggers`. -/
structure EmotionalTriggers where
  fear_appeals : List TriggerRecord
  urgency_markers : List TriggerRecord
  emotional_language : List TriggerRecord
  psychological_pressure : List TriggerRecord
deriving DecidableEq

/-- `PropagandaDetector.analyze_emotional_triggers(text)` (`app.py` lines
212-264). -/
def analyze_emotional_triggers (text : String) : EmotionalTriggers :=
  let tl := pyLower text.data
  let fear := fear_triggers.filterMap fun kw =>
    if containsSub tl kw.data then
      some ⟨kw, none, "Exploits anxiety and threat perception",
            find_keyword_positions tl kw.data⟩
    else none
  let urgencyCats : List (String × List String) :=
    [("high", urgency_high), ("medium", urgency_medium), ("subtle", urgency_subtle)]
  let urg := urgencyCats.flatMap fun p =>
    p.2.filterMap fun kw =>
      if containsSub tl kw.data then
        some ⟨kw, some p.1, "Creates " ++ p.1 ++ " pressure for immediate action",
              find_keyword_positions tl kw.data⟩
      else none
  let emoCats : List (String × List String) :=
    [("high", emotional_high), ("medium", emotional_medium), ("subtle", emotional_subtle)]
  let emo := emoCats.flatMap fun p =>
    p.2.filterMap fun kw =>
      if containsSub tl kw.data then
        some ⟨kw, some p.1, "Bypasses rational thinking with " ++ p.1 ++ " emotional appeal",
              find_keyword_positions tl kw.data⟩
      else none
  let psych := absolute.filterMap fun kw =>
    if containsSub tl kw.data then
      some ⟨kw, none, "Uses absolute statements to discourage critical thinking",
            find_keyword_positions tl kw.data⟩
    else none
  ⟨fear, urg, emo, psych⟩

/-! ### Score Composer -/

/-- The diminishing-returns contribution of one counted category entry,
`weight * min(count, 3) * decay ** max(0, count - 1)` (`app.py` line 206
with `decay = 0.8`, line 343 with `decay = 0.9`); truncated `ℕ`
subtraction realises `max(0, count - 1)`. -/
def weightedContribution (w d : ℚ) (count : ℕ) : ℚ :=
  w * (min count 3 : ℕ) * d ^ (count - 1)

/-- The `urgency_weights` table of `analyze_urgency` (`app.py` lines
331-335). -/
def urgency_weights : List (ℚ × List String) :=
  [(25, urgency_high), (15, urgency_medium), (8, urgency_subtle)]

/-- `PropagandaDetector.analyze_urgency(text)` (`app.py` lines 325-347):
per keyword the non-overlapping occurrence count feeds the
diminishing-returns formula with decay 0.9; the sum is capped at 100. -/
def analyze_urgency (text : String) : ℚ :=
  let tl := pyLower text.data
  let score := (urgency_weights.map fun p =>
    (p.2.map fun kw =>
      let c := pyCount tl kw.data
      if 0 < c then weightedContribution p.1 (9/10) c else 0).sum).sum
  min score 100

/-- The `weights` table of `calculate_enhanced_emotional_intensity`
(`app.py` lines 188-198), in `bias_keywords` iteration order. -/
def emotional_weights : List (ℚ × List String) :=
  [(25, emotional_high), (15, emotional_medium), (8, emotional_subtle),
   (20, urgency_high), (12, urgency_medium), (5, urgency_subtle),
   (18, fear_triggers), (15, loaded), (10, absolute)]

/-- `PropagandaDetector.calculate_enhanced_emotional_intensity(text, base)`
(`app.py` lines 182-210): per category the count of distinct matched
keywords feeds the diminishing-returns formula with decay 0.8; the result
is capped at 100. -/
def calculate_enhanced_emotional_intensity (text : String) (base : ℚ) : ℚ :=
  let tl := pyLower text.data
  let score := base + (emotional_weights.map fun p =>
    let count := (p.2.filter fun kw => containsSub tl kw.data).length
    if 0 < count then weightedContribution p.1 (8/10) count else 0).sum
  min score 100

/-- The `technique_weights` severity table of
`calculate_propaganda_risk_score` (`app.py` lines 476-485). -/
def technique_weights : List (String × ℚ) :=
  [("fear_mongering", 15), ("conspiracy_theory", 12), ("loaded_language", 10),
   ("call_to_action", 8), ("us_vs_them", 10), ("bandwagon", 7),
   ("appeal_to_authority", 6), ("strawman", 8)]

/-- `technique['technique'].lower().replace(' ', '_')` (`app.py` line 491). -/
def normTechName (s : String) : String :=
  ⟨pyReplace (pyLower s.data) " ".data "_".data⟩

/-- `technique_weights.get(name, 5)` (`app.py` line 492). -/
def technique_weight (name : String) : ℚ :=
  ((technique_weights.find? fun p => p.1 == name).map Prod.snd).getD 5

/-- `PropagandaDetector.calculate_propaganda_risk_score` (`app.py` lines
470-506), including the `if len >= 3 / elif len >= 5` diversity-bonus
branch ordering exactly as written. -/
def calculate_propaganda_risk_score (techs : List Finding) : ℚ :=
  if techs.isEmpty then 0
  else
    let score := (techs.map fun t =>
      technique_weight (normTechName t.technique) * t.confidence).sum
    let technique_types := (techs.map fun t => normTechName t.technique).dedup
    let score :=
      if 3 ≤ technique_types.length then score * (12/10)
      else if 5 ≤ technique_types.length then score * (14/10)
      else score
    min score 100

/-- One entry of the `dangerous_combos` table. -/
structure DangerCombo where
  techniques : List String
  bonus : ℚ
  rationale : String

/-- The `dangerous_combos` table of `calculate_combination_risk`
(`app.py` lines 517-523). -/
def dangerous_combos : List DangerCombo :=
  [⟨["fear_mongering", "call_to_action"], 20,
    "Fear + urgent action = classic manipulation"⟩,
   ⟨["conspiracy_theory", "us_vs_them"], 18,
    "Conspiracy + division = radicalization pattern"⟩,
   ⟨["loaded_language", "bandwagon"], 15,
    "Emotional language + peer pressure"⟩,
   ⟨["fear_mongering", "conspiracy_theory"], 25,
    "Fear + conspiracy = dangerous misinformation"⟩,
   ⟨["call_to_action", "urgency"], 12,
    "Pressure tactics combination"⟩]

/-- `PropagandaDetector.calculate_combination_risk(techniques, emotional_analysis)`
(`app.py` lines 508-543): a combo's bonus is awarded when each of its
(underscore-separated) names is a substring of some detected (lower-cased,
space-separated) technique name; +10 when at least 3 of the 4 trigger
lists are non-empty; capped at 40. `None` for `emotional_analysis` is the
`not emotional_analysis` early return. -/
def calculate_combination_risk (techs : List Finding)
    (ea : Option EmotionalTriggers) : ℚ :=
  if techs.isEmpty then 0
  else
    match ea with
    | none => 0
    | some ea =>
      let technique_names := techs.map fun t => pyLower t.technique.data
      let pair_score := (dangerous_combos.map fun c =>
        if c.techniques.all fun ct =>
            technique_names.any fun tn => containsSub tn ct.data
        then c.bonus else 0).sum
      let trigger_categories : ℕ :=
        (if ea.fear_appeals.isEmpty then 0 else 1) +
        (if ea.urgency_markers.isEmpty then 0 else 1) +
        (if ea.emotional_language.isEmpty then 0 else 1) +
        (if ea.psychological_pressure.isEmpty then 0 else 1)
      let risk_score := pair_score + (if 3 ≤ trigger_categories then 10 else 0)
      min risk_score 40

/-- Round-half-to-even on `ℚ`, the tie-breaking Python's `round` uses. -/
def roundHalfEven (x : ℚ) : ℤ :=
  let f := ⌊x⌋
  let r := x - f
  if r < 1/2 then f
  else if 1/2 < r then f + 1
  else if f % 2 = 0 then f else f + 1

/-- Python `round(x, 2)` modelled on `ℚ`. -/
def pyRound2 (x : ℚ) : ℚ := (roundHalfEven (100 * x) : ℚ) / 100

/-- `PropagandaDetector.calculate_overall_score` (`app.py` lines 440-468):
the fixed-weight combination of the sub-scores, capped at 100 and rounded
to two decimals. -/
def calculate_overall_score (emotional_intensity bias_score urgency_score : ℚ)
    (techs : List Finding) (ea : Option EmotionalTriggers) : ℚ :=
  let normalized_bias := |bias_score|
  let propaganda_score := calculate_propaganda_risk_score techs
  let combination_score := calculate_combination_risk techs ea
  let overall :=
    emotional_intensity * (25/100) + normalized_bias * (15/100) +
    urgency_score * (20/100) + propaganda_score * (25/100) +
    combination_score * (15/100)
  pyRound2 (min overall 100)

/-! ### Risk tiering -/

/-- A caller-supplied `thresholds` dictionary; an absent key is `none`. -/
structure ThresholdsDict where
  low : Option ℚ
  medium : Option ℚ
deriving DecidableEq

/-- The default thresholds `{'low': 34, 'medium': 67}` (`app.py` line 549). -/
def default_thresholds : ThresholdsDict := ⟨some 34, some 67⟩

/-- `PropagandaDetector.get_risk_level(score, thresholds)` (`app.py` lines
545-556). Only `None` falls back to the defaults; a missing key raises
`KeyError` at the subscript, modelled as `Except.error`. `'medium'` is
only subscripted when `score < thresholds['low']` fails, exactly as in the
source. -/
def get_risk_level (score : ℚ) (thresholds : Option ThresholdsDict) :
    Except String String :=
  let t := thresholds.getD default_thresholds
  match t.low with
  | none => .error "KeyError: low"
  | some lo =>
    if score < lo then .ok "low"
    else
      match t.medium with
      | none => .error "KeyError: medium"
      | some med => if score < med then .ok "medium" else .ok "high"

/-! ### Response Interpreter (`llm_analyzer.py`)

`json.loads` is modelled by `jsonLoads`, an executable reader of the JSON
fragment this system exchanges: objects, arrays, double-quoted strings
with the single-character escapes, decimal numbers without exponents,
`true`/`false`/`null`, with arbitrary surrounding whitespace and the whole
input consumed.  On this fragment it succeeds exactly when Python's
`json.loads` does. -/

/-- The `'\x7b'` character, written by code point to keep brace characters
out of the source text. -/
def lbrace : Char := Char.ofNat 123

/-- The `'\x7d'` character. -/
def rbrace : Char := Char.ofNat 125

/-- A parsed JSON value. -/
inductive JValue where
  | jnull : JValue
  | jbool : Bool → JValue
  | jnum : ℚ → JValue
  | jstr : List Char → JValue
  | jarr : List JValue → JValue
  | jobj : List (List Char × JValue) → JValue

/-- JSON insignificant whitespace. -/
def jsonSkipWs (s : List Char) : List Char := s.dropWhile isPyWs

def jdigit (c : Char) : Bool := '0' ≤ c && c ≤ '9'

/-- Value of a digit run, most significant first. -/
def digitsVal (ds : List Char) : ℕ :=
  ds.foldl (fun acc c => 10 * acc + (c.toNat - '0'.toNat)) 0

/-- JSON string escapes `\" \\ \/ \n \t \r \b \f`. -/
def escChar (c : Char) : Option Char :=
  if c = '"' then some '"'
  else if c = '\\' then some '\\'
  else if c = '/' then some '/'
  else if c = 'n' then some '\n'
  else if c = 't' then some '\t'
  else if c = 'r' then some '\r'
  else if c = 'b' then some (Char.ofNat 8)
  else if c = 'f' then some (Char.ofNat 12)
  else none

/-- Body of a JSON string after the opening quote. -/
def parseJStrBody : ℕ → List Char → Option (List Char × List Char)
  | 0, _ => none
  | _, [] => none
  | fuel + 1, c :: rest =>
    if c = '"' then some ([], rest)
    else if c = '\\' then
      match rest with
      | [] => none
      | e :: rest2 =>
        match escChar e with
        | none => none
        | some ce => (parseJStrBody fuel rest2).map fun p => (ce :: p.1, p.2)
    else (parseJStrBody fuel rest).map fun p => (c :: p.1, p.2)

/-- A JSON number: optional minus, digits, optional fraction. -/
def parseJNum (s : List Char) : Option (ℚ × List Char) :=
  let sgn := match s with
    | '-' :: rest => (true, rest)
    | _ => (false, s)
  let ds := sgn.2.takeWhile jdigit
  let rest := sgn.2.dropWhile jdigit
  if ds.isEmpty then none
  else
    let ipart : ℚ := (digitsVal ds : ℕ)
    match rest with
    | '.' :: rest2 =>
      let fs := rest2.takeWhile jdigit
      let rest3 := rest2.dropWhile jdigit
      if fs.isEmpty then none
      else
        let q := ipart + (digitsVal fs : ℚ) / (10 : ℚ) ^ fs.length
        some (if sgn.1 then -q else q, rest3)
    | _ => some (if sgn.1 then -ipart else ipart, rest)

mutual

/-- One JSON value, returning the unconsumed remainder. -/
def parseJ : ℕ → List Char → Option (JValue × List Char)
  | 0, _ => none
  | fuel + 1, s =>
    match jsonSkipWs s with
    | [] => none
    | c :: rest =>
      if c = 'n' then
        if ("ull".data).isPrefixOf rest then some (.jnull, rest.drop 3) else none
      else if c = 't' then
        if ("rue".data).isPrefixOf rest then some (.jbool true, rest.drop 3) else none
      else if c = 'f' then
        if ("alse".data).isPrefixOf rest then some (.jbool false, rest.drop 4) else none
      else if c = '"' then
        (parseJStrBody (rest.length + 1) rest).map fun p => (.jstr p.1, p.2)
      else if c = '[' then
        match jsonSkipWs rest with
        | c2 :: rest2 =>
          if c2 = ']' then some (.jarr [], rest2)
          else (parseJArrItems fuel (c2 :: rest2)).map fun p => (.jarr p.1, p.2)
        | [] => none
      else if c = lbrace then
        match jsonSkipWs rest with
        | c2 :: rest2 =>
          if c2 = rbrace then some (.jobj [], rest2)
          else (parseJObjItems fuel (c2 :: rest2)).map fun p => (.jobj p.1, p.2)
        | [] => none
      else
        (parseJNum (c :: rest)).map fun p => (.jnum p.1, p.2)

/-- Comma-separated array items up to the closing bracket. -/
def parseJArrItems : ℕ → List Char → Option (List JValue × List Char)
  | 0, _ => none
  | fuel + 1, s =>
    match parseJ fuel s with
    | none => none
    | some (v, rest) =>
      match jsonSkipWs rest with
      | ',' :: rest2 => (parseJArrItems fuel rest2).map fun p => (v :: p.1, p.2)
      | c2 :: rest2 => if c2 = ']' then some ([v], rest2) else none
      | [] => none

/-- Comma-separated `"key": value` members up to the closing brace. -/
def parseJObjItems : ℕ → List Char → Option (List (List Char × JValue) × List Char)
  | 0, _ => none
  | fuel + 1, s =>
    match jsonSkipWs s with
    | '"' :: rest =>
      match parseJStrBody (rest.length + 1) rest with
      | none => none
      | some (key, rest2) =>
        match jsonSkipWs rest2 with
        | ':' :: rest3 =>
          match parseJ fuel rest3 with
          | none => none
          | some (v, rest4) =>
            match jsonSkipWs rest4 with
            | ',' :: rest5 =>
              (parseJObjItems fuel rest5).map fun p => ((key, v) :: p.1, p.2)
            | c5 :: rest5 => if c5 = rbrace then some ([(key, v)], rest5) else none
            | [] => none
        | _ => none
    | _ => none

end

/-- The model of Python `json.loads(s)`: parse one value and require only
whitespace to remain; `none` models a raised `JSONDecodeError`. -/
def jsonLoads (s : List Char) : Option JValue :=
  match parseJ (2 * s.length + 8) s with
  | some (v, rest) => if (jsonSkipWs rest).isEmpty then some v else none
  | none => none

/-- Python `s.find(c)` for a single character, `none` for `-1`. -/
def pyFindCharIdx (c : Char) (s : List Char) : Option ℕ := s.findIdx? (· = c)

/-- Python `s.rfind(c)` for a single character, `none` for `-1`. -/
def pyRFindCharIdx (c : Char) (s : List Char) : Option ℕ :=
  (s.reverse.findIdx? (· = c)).map fun i => s.length - 1 - i

/-- `LLMPropagandaAnalyzer._parse_llm_response(content)`
(`llm_analyzer.py` lines 84-113): strip the content, locate the first
`'\x7b'` and the last `'\x7d'`; when `start_idx != -1 and end_idx >
start_idx`, drop code-fence markers from that slice and parse it — a
parse failure inside this branch propagates to the `except` handler and
returns `None` (the whole-content parse is *not* attempted); only when no
brace region exists is the whole stripped content parsed.  `none` models
the `return None` of both `except` handlers. -/
def parse_llm_response (content : List Char) : Option JValue :=
  let content := pyStrip content
  match pyFindCharIdx lbrace content, pyRFindCharIdx rbrace content with
  | some si, some ri =>
    if si < ri + 1 then
      let json_str := (content.drop si).take (ri + 1 - si)
      jsonLoads (pyReplace (pyReplace json_str "```json".data []) "```".data [])
    else jsonLoads content
  | some _, none => jsonLoads content
  | none, _ => jsonLoads content

/-! ### Provider Gateway (`llm_service.py`) -/

/-- The `LLMResponse` dataclass (`llm_service.py` lines 17-24). -/
structure LLMResponse where
  content : String
  provider : String
  model : String
  tokens_used : ℕ
  success : Bool
  error : Option String
deriving DecidableEq

/-- A provider as the gateway sees it: the `is_available()` predicate and
the `generate(prompt, max_tokens)` call, whose raising of an exception is
modelled by `Except.error`.  (`max_tokens` plays no role in the control
flow and is omitted.) -/
structure LLMProvider where
  pname : String
  is_available : Bool
  generate : String → Except Unit LLMResponse

/-- The result dictionary of `_generate_with_fallback`; keys absent from a
branch are `none`. -/
structure Envelope where
  success : Bool
  error : Option String
  content : String
  provider : Option String
  model : Option String
  tokens_used : Option ℕ
deriving DecidableEq

/-- `LLMService.get_available_providers` (`llm_service.py` lines 265-267). -/
def get_available_providers (ps : List LLMProvider) : List LLMProvider :=
  ps.filter (·.is_available)

/-- The `for provider in available_providers` loop of
`_generate_with_fallback` (`llm_service.py` lines 505-528): first
successful response returns immediately; a failed response or a raised
exception advances to the next provider; falling off the loop returns the
`All LLM providers failed` envelope with content
`"LLM analysis unavailable"`. -/
def fallbackSweep (prompt : String) : List LLMProvider → Envelope
  | [] => ⟨false, some "All LLM providers failed", "LLM analysis unavailable",
           none, none, none⟩
  | p :: rest =>
    match p.generate prompt with
    | .ok r =>
      if r.success then
        ⟨true, none, r.content, some r.provider, some r.model, some r.tokens_used⟩
      else fallbackSweep prompt rest
    | .error _ => fallbackSweep prompt rest

/-- `LLMService._generate_with_fallback(prompt, max_tokens)`
(`llm_service.py` lines 494-528). -/
def generate_with_fallback (ps : List LLMProvider) (prompt : String) : Envelope :=
  let available_providers := get_available_providers ps
  if available_providers.isEmpty then
    ⟨false, some "No LLM providers available", "", none, none, none⟩
  else fallbackSweep prompt available_providers

/-- `GroqProvider` (`llm_service.py` lines 99-157): `generate` never
raises — every branch of its `try`/`except` returns an `LLMResponse`.
With no API key it returns the no-key failure; otherwise the outcome of
the network call is the `netResponse` parameter.  `is_available()` is
`bool(self.api_key)`. -/
def GroqProvider (api_key : Option String) (netResponse : LLMResponse) : LLMProvider :=
  ⟨"GroqProvider", api_key.isSome,
   fun _ => .ok (match api_key with
     | none => ⟨"", "groq", "llama3-8b-8192", 0, false, some "No API key provided"⟩
     | some _ => netResponse)⟩

/-- `OpenRouterProvider` (`llm_service.py` lines 39-97), modelled like
`GroqProvider`. -/
def OpenRouterProvider (api_key : Option String) (netResponse : LLMResponse) : LLMProvider :=
  ⟨"OpenRouterProvider", api_key.isSome,
   fun _ => .ok (match api_key with
     | none => ⟨"", "openrouter", "mistralai/mistral-7b-instruct:free", 0, false,
                some "No API key provided"⟩
     | some _ => netResponse)⟩

/-- The canned comprehensive-analysis JSON returned by
`MockLLMProvider.generate` (`llm_service.py` lines 165-240), brace
characters written as `\x7b`/`\x7d`. -/
def mockComprehensiveContent : String := "\x7b\n  \"overall_risk_score\": 75,\n  \"risk_level\": \"high\",\n  \"emotional_intensity\": 85,\n  \"urgency_score\": 60,\n  \"ideological_bias\": -20,\n  \"propaganda_techniques\": [\n    \x7b\n      \"technique\": \"Appeal to fear\",\n      \"confidence\": 0.9,\n      \"evidence\": \"shocking, devastate\",\n      \"psychological_impact\": \"Triggers fear response to bypass critical thinking\"\n    \x7d,\n    \x7b\n      \"technique\": \"Bandwagon\",\n      \"confidence\": 0.8,\n      \"evidence\": \"everyone\",\n      \"psychological_impact\": \"Creates social pressure to conform\"\n    \x7d\n  ],\n  \"emotional_triggers\": [\n    \x7b\n      \"trigger_type\": \"fear\",\n      \"intensity\": \"high\",\n      \"evidence\": \"shocking revelation, devastate\"\n    \x7d\n  ],\n  \"cognitive_biases_exploited\": [\n    \x7b\n      \"bias\": \"availability heuristic\",\n      \"mechanism\": \"Uses vivid emotional language\",\n      \"impact\": \"Makes threat seem more immediate and real\"\n    \x7d\n  ],\n  \"linguistic_manipulation\": \x7b\n    \"loaded_language\": [\"shocking\", \"devastate\"],\n    \"false_urgency\": [],\n    \"absolute_statements\": [\"everyone\"]\n  \x7d,\n  \"credibility_assessment\": \x7b\n    \"evidence_quality\": \"poor\",\n    \"logical_fallacies\": [\"appeal to emotion\"]\n  \x7d,\n  \"psychological_analysis\": \x7b\n    \"target_audience\": \"General public\",\n    \"persuasion_tactics\": [\"fear appeal\", \"social proof\"],\n    \"vulnerability_exploitation\": [\"emotional vulnerability\", \"desire for belonging\"]\n  \x7d,\n  \"bias_analysis\": \x7b\n    \"ideological_bias\": \x7b\n      \"score\": -20,\n      \"classification\": \"center-left\",\n      \"evidence\": [\"emotional manipulation\", \"lack of evidence\"]\n    \x7d,\n    \"cultural_bias\": \x7b\n      \"present\": false,\n      \"types\": []\n    \x7d,\n    \"source_bias\": \x7b\n      \"credibility_issues\": [\"No sources cited\", \"Emotional claims without evidence\"]\n    \x7d\n  \x7d,\n  \"entity_analysis\": \x7b\n    \"entities\": []\n  \x7d,\n  \"technique_explanations\": \x7b\n    \"success\": true,\n    \"content\": \"This text uses fear-based propaganda techniques including appeal to fear and bandwagon effects. The word 'shocking' creates emotional impact while 'everyone' suggests universal agreement to pressure conformity.\"\n  \x7d,\n  \"improvement_suggestions\": \x7b\n    \"success\": true,\n    \"content\": \"To improve this text: 1) Remove emotionally charged words like 'shocking' and 'devastate', 2) Provide specific evidence instead of claiming universal impact, 3) Use neutral language and avoid absolute statements.\"\n  \x7d,\n  \"media_literacy_insights\": \"This text demonstrates how emotional language can bypass critical thinking. Always ask: What evidence supports these claims? Who benefits from this emotional response?\",\n  \"detailed_explanation\": \"This text shows high-risk propaganda characteristics with emotional manipulation techniques designed to trigger fear and social pressure. It lacks evidence and uses loaded language to bypass rational analysis.\"\n\x7d"

/-- `MockLLMProvider` (`llm_service.py` lines 159-252): `is_available()`
returns `True` unconditionally and `generate` always succeeds, returning
the canned JSON when the prompt mentions comprehensive analysis or
propaganda and a short factual note otherwise. -/
def MockLLMProvider : LLMProvider :=
  ⟨"MockLLMProvider", true,
   fun prompt => .ok
     ⟨if containsSub (pyLower prompt.data) "comprehensive analysis".data ||
         containsSub (pyLower prompt.data) "propaganda".data then
        mockComprehensiveContent
      else "This appears to be a factual statement with minimal bias indicators.",
      "mock", "mock-llm", 0, true, none⟩⟩

/-- `LLMService.__init__` (`llm_service.py` lines 257-263): the fixed,
priority-ordered provider registry `[GroqProvider(), OpenRouterProvider(),
MockLLMProvider()]`, parameterised by the environment keys and the
network-dependent responses of the two real backends. -/
def llmServiceProviders (groq_key openrouter_key : Option String)
    (groqNet openrouterNet : LLMResponse) : List LLMProvider :=
  [GroqProvider groq_key groqNet, OpenRouterProvider openrouter_key openrouterNet,
   MockLLMProvider]

/-! ### Theory of the position scan (claim C9) -/

/-- All match offsets at or after `start`, in increasing order. -/
def matchesFrom (text kw : List Char) (start : ℕ) : List ℕ :=
  (List.range (text.length + 1)).filter
    (fun i => decide (start ≤ i) && occursAtB text kw i)

theorem pyStrFindAux_none (text kw : List Char) :
    ∀ fuel start, text.length + 1 - start ≤ fuel →
      pyStrFindAux text kw start fuel = none →
      ∀ i, start ≤ i → i ≤ text.length → occursAtB text kw i = false := by
  intro fuel
  induction fuel with
  | zero =>
    intro start hfuel _ i hsi hil
    omega
  | succ fuel ih =>
    intro start hfuel hnone i hsi hil
    rw [pyStrFindAux] at hnone
    by_cases hs : start ≤ text.length
    · rw [if_pos hs] at hnone
      by_cases hocc : occursAtB text kw start
      · rw [if_pos hocc] at hnone
        exact absurd hnone (by simp)
      · rw [if_neg hocc] at hnone
        rcases Nat.eq_or_lt_of_le hsi with h | h
        · subst h
          exact Bool.eq_false_iff.mpr hocc
        · exact ih (start + 1) (by omega) hnone i h hil
    · omega

theorem pyStrFindAux_some (text kw : List Char) :
    ∀ fuel start pos, pyStrFindAux text kw start fuel = some pos →
      start ≤ pos ∧ pos ≤ text.length ∧ occursAtB text kw pos = true ∧
      ∀ j, start ≤ j → j < pos → occursAtB text kw j = false := by
  intro fuel
  induction fuel with
  | zero =>
    intro start pos h
    exact absurd h (by simp [pyStrFindAux])
  | succ fuel ih =>
    intro start pos h
    rw [pyStrFindAux] at h
    by_cases hs : start ≤ text.length
    · rw [if_pos hs] at h
      by_cases hocc : occursAtB text kw start
      · rw [if_pos hocc] at h
        obtain rfl : start = pos := by simpa using h
        exact ⟨le_refl _, hs, hocc, fun j h1 h2 => absurd h1 (by omega)⟩
      · rw [if_neg hocc] at h
        obtain ⟨h1, h2, h3, h4⟩ := ih (start + 1) pos h
        refine ⟨by omega, h2, h3, fun j hj1 hj2 => ?_⟩
        rcases Nat.eq_or_lt_of_le hj1 with hj | hj
        · subst hj; exact Bool.eq_false_iff.mpr hocc
        · exact h4 j hj hj2
    · rw [if_neg hs] at h
      exact absurd h (by simp)

theorem pyStrFind_none (text kw : List Char) (start : ℕ)
    (h : pyStrFind text kw start = none) :
    matchesFrom text kw start = [] := by
  apply List.filter_eq_nil_iff.mpr
  intro i hi
  rw [List.mem_range] at hi
  simp only [Bool.and_eq_true, decide_eq_true_eq, not_and]
  intro hsi
  simp [pyStrFindAux_none text kw _ start (le_refl _) h i hsi (by omega)]

theorem pyStrFind_some (text kw : List Char) (start pos : ℕ)
    (h : pyStrFind text kw start = some pos) :
    matchesFrom text kw start = pos :: matchesFrom text kw (pos + 1) := by
  obtain ⟨h1, h2, h3, h4⟩ := pyStrFindAux_some text kw _ start pos h
  unfold matchesFrom
  have hsplit : text.length + 1 = (pos + 1) + (text.length - pos) := by omega
  rw [hsplit, List.range_add, List.filter_append, List.filter_append]
  have hr : List.range (pos + 1) = List.range pos ++ [pos] := by
    simpa using List.range_succ pos
  have hfirst :
      (List.range (pos + 1)).filter
        (fun i => decide (start ≤ i) && occursAtB text kw i) = [pos] := by
    rw [hr, List.filter_append]
    have hnil : (List.range pos).filter
        (fun i => decide (start ≤ i) && occursAtB text kw i) = [] := by
      apply List.filter_eq_nil_iff.mpr
      intro i hi
      rw [List.mem_range] at hi
      simp only [Bool.and_eq_true, decide_eq_true_eq, not_and]
      intro hsi
      simp [h4 i hsi hi]
    rw [hnil]
    simp [h1, h3]
  have hsecond :
      (List.range (pos + 1)).filter
        (fun i => decide (pos + 1 ≤ i) && occursAtB text kw i) = [] := by
    apply List.filter_eq_nil_iff.mpr
    intro i hi
    rw [List.mem_range] at hi
    simp only [Bool.and_eq_true, decide_eq_true_eq, not_and]
    intro hle
    exact absurd hle (by omega)
  have htail : ((List.range (text.length - pos)).map ((pos + 1) + ·)).filter
        (fun i => decide (start ≤ i) && occursAtB text kw i) =
      ((List.range (text.length - pos)).map ((pos + 1) + ·)).filter
        (fun i => decide (pos + 1 ≤ i) && occursAtB text kw i) := by
    apply List.filter_congr
    intro a ha
    simp only [List.mem_map] at ha
    obtain ⟨b, _, rfl⟩ := ha
    have h5 : start ≤ pos + 1 + b := by omega
    have h6 : pos + 1 ≤ pos + 1 + b := by omega
    simp [h5, h6]
  rw [hfirst, hsecond, htail]
  simp

theorem fkpAux_eq (text kw : List Char) :
    ∀ fuel start, text.length + 1 - start ≤ fuel →
      fkpAux text kw start fuel =
        (matchesFrom text kw start).map (fun i => (i, i + kw.length)) := by
  intro fuel
  induction fuel with
  | zero =>
    intro start hfuel
    have hnil : matchesFrom text kw start = [] := by
      apply List.filter_eq_nil_iff.mpr
      intro i hi
      rw [List.mem_range] at hi
      simp only [Bool.and_eq_true, decide_eq_true_eq, not_and]
      intro hsi
      exfalso
      omega
    rw [hnil]
    rfl
  | succ fuel ih =>
    intro start hfuel
    rw [fkpAux]
    cases h : pyStrFind text kw start with
    | none =>
      rw [pyStrFind_none text kw start h]
      rfl
    | some pos =>
      obtain ⟨h1, h2, _, _⟩ := pyStrFindAux_some text kw _ start pos h
      dsimp only
      rw [pyStrFind_some text kw start pos h, List.map_cons,
        ih (pos + 1) (by omega)]

theorem find_keyword_positions_eq (text kw : List Char) :
    find_keyword_positions text kw =
      ((List.range (text.length + 1)).filter (occursAtB text kw)).map
        (fun i => (i, i + kw.length)) := by
  rw [find_keyword_positions, fkpAux_eq text kw _ 0 (by omega)]
  congr 1
  unfold matchesFrom
  apply List.filter_congr
  intro a _
  simp

theorem find_keyword_positions_starts_lt (text kw : List Char) :
    (find_keyword_positions text kw).Pairwise (fun p q => p.1 < q.1) := by
  rw [find_keyword_positions_eq, List.pairwise_map]
  exact ((List.pairwise_lt_range _).filter _).imp (fun h => h)

/-- **C9.** Keyword-position search records every occurrence of the keyword
in the (lower-cased) text, overlap-permitting: the returned list is exactly
the increasing list of all match offsets `i`, each paired with
`i + len(keyword)` as its `end`.  The filter-of-range form makes the three
spec properties simultaneous: one entry per occurrence, `end = start +
len(keyword)`, and strictly increasing starts; the `"aaa"`/`"aa"` instance
shows the scan resumes at `pos + 1` (not `pos + len`), retaining the
overlapping match at offset 1. -/
theorem keyword_positions_record_all_occurrences : ∀ text kw : List Char,
    (find_keyword_positions text kw =
      ((List.range (text.length + 1)).filter (occursAtB text kw)).map
        (fun i => (i, i + kw.length))) ∧
    (find_keyword_positions text kw).Pairwise (fun p q => p.1 < q.1) ∧
    find_keyword_positions "aaa".data "aa".data = [(0, 2), (1, 3)] :=
  fun text kw =>
    ⟨find_keyword_positions_eq text kw, find_keyword_positions_starts_lt text kw,
     rfl⟩

/-! ### Claim C3: diminishing-returns contribution -/

/-- **C3, counterexample.** With the urgency weight 25 and decay 0.9, the
contribution at 4 occurrences is *not* equal to the contribution at 3 (it
is strictly smaller: the `min(count, 3)` cap freezes, but the decay
exponent keeps growing), refuting "beyond 3 occurrences contribution is
flat". -/
theorem weightedContribution_not_flat_beyond_three :
    weightedContribution 25 (9/10) 4 ≠ weightedContribution 25 (9/10) 3 ∧
    weightedContribution 25 (9/10) 4 < weightedContribution 25 (9/10) 3 := by
  constructor <;> norm_num [weightedContribution]

/-- **C3, amended.** For the source's weight/decay pairs (any non-negative
weight, decay 0.8 for the emotional composition or 0.9 for urgency),
raising a count from `n` to `n + 1` with `n + 1 ≤ 3` never decreases the
contribution `weight * min(count, 3) * decay ^ max(0, count - 1)`; but
beyond 3 occurrences the contribution is not flat — it decays
geometrically, each further occurrence multiplying it by `decay`. -/
theorem weightedContribution_monotone_then_decays (w d : ℚ) (n : ℕ)
    (hw : 0 ≤ w) (hd : d = 8/10 ∨ d = 9/10) :
    (n + 1 ≤ 3 → weightedContribution w d n ≤ weightedContribution w d (n + 1)) ∧
    (3 ≤ n → weightedContribution w d (n + 1) = d * weightedContribution w d n) := by
  constructor
  · intro hn
    have hn2 : n ≤ 2 := by omega
    interval_cases n <;>
      rcases hd with rfl | rfl <;>
      · simp only [weightedContribution]
        norm_num
        nlinarith
  · intro hn
    have h1 : min (n + 1) 3 = 3 := by omega
    have h2 : min n 3 = 3 := by omega
    have h3 : n + 1 - 1 = (n - 1) + 1 := by omega
    simp only [weightedContribution, h1, h2, h3, pow_succ]
    ring

/-- Witness for `weightedContribution_monotone_then_decays` at weight 25,
decay 0.9, count 2 → 3 and count 3 → 4. -/
theorem weightedContribution_monotone_then_decays_witness :
    weightedContribution 25 (9/10) 2 ≤ weightedContribution 25 (9/10) 3 ∧
    weightedContribution 25 (9/10) 4 = (9/10) * weightedContribution 25 (9/10) 3 :=
  ⟨(weightedContribution_monotone_then_decays 25 (9/10) 2 (by norm_num)
      (Or.inr rfl)).1 (by norm_num),
   (weightedContribution_monotone_then_decays 25 (9/10) 3 (by norm_num)
      (Or.inr rfl)).2 (by norm_num)⟩

/-! ### Claims C4 and C8: risk tiering -/

/-- **C4, counterexample.** A malformed thresholds dictionary missing the
`'low'` key is not ignored: at score 50 the subscript raises `KeyError`
(modelled as `Except.error`), so no tier is returned and the fallback to
defaults does not happen. -/
theorem get_risk_level_malformed_raises :
    get_risk_level 50 (some ⟨none, some 67⟩) = .error "KeyError: low" ∧
    (get_risk_level 50 (some ⟨none, some 67⟩)).isOk = false :=
  ⟨rfl, rfl⟩

/-- **C4, amended.** The fallback to the default thresholds applies only
when the caller supplies no thresholds (`None`), in which case a tier is
always returned; a caller-supplied dictionary missing `'low'` raises
`KeyError` for every score, one missing `'medium'` raises `KeyError`
whenever the score is not below `low` (and still tiers `'low'` otherwise);
a dictionary carrying both keys always returns a tier. -/
theorem get_risk_level_fallback_only_for_none :
    (∀ score : ℚ, get_risk_level score none = get_risk_level score (some default_thresholds)) ∧
    (∀ (score : ℚ) (m : Option ℚ),
      get_risk_level score (some ⟨none, m⟩) = .error "KeyError: low") ∧
    (∀ score lo : ℚ, lo ≤ score →
      get_risk_level score (some ⟨some lo, none⟩) = .error "KeyError: medium") ∧
    (∀ score lo : ℚ, score < lo →
      get_risk_level score (some ⟨some lo, none⟩) = .ok "low") ∧
    (∀ score lo med : ℚ, ∃ tier,
      get_risk_level score (some ⟨some lo, some med⟩) = .ok tier) := by
  refine ⟨fun score => rfl, fun score m => rfl, ?_, ?_, ?_⟩
  · intro score lo h
    simp [get_risk_level, not_lt.mpr h]
  · intro score lo h
    simp [get_risk_level, h]
  · intro score lo med
    simp only [get_risk_level, Option.getD_some]
    split
    · exact ⟨"low", rfl⟩
    · split
      · exact ⟨"medium", rfl⟩
      · exact ⟨"high", rfl⟩

/-- Witness for `get_risk_level_fallback_only_for_none` at concrete scores
and thresholds. -/
theorem get_risk_level_fallback_only_for_none_witness :
    get_risk_level 10 none = get_risk_level 10 (some default_thresholds) ∧
    get_risk_level 50 (some ⟨none, some 67⟩) = .error "KeyError: low" ∧
    get_risk_level 50 (some ⟨some 34, none⟩) = .error "KeyError: medium" ∧
    get_risk_level 20 (some ⟨some 34, none⟩) = .ok "low" ∧
    ∃ tier, get_risk_level 50 (some ⟨some 34, some 67⟩) = .ok tier :=
  ⟨get_risk_level_fallback_only_for_none.1 10,
   get_risk_level_fallback_only_for_none.2.1 50 (some 67),
   get_risk_level_fallback_only_for_none.2.2.1 50 34 (by norm_num),
   get_risk_level_fallback_only_for_none.2.2.2.1 20 34 (by norm_num),
   get_risk_level_fallback_only_for_none.2.2.2.2 50 34 67⟩

/-- **C8.** The risk-tier function is a pure total function of its
arguments (it is a Lean function, so identical inputs give identical
results by definition), with inclusive-low/exclusive-high boundaries: with
thresholds `{low, medium}` supplied, `score < low` tiers `'low'`,
`low ≤ score < medium` tiers `'medium'` and `low ≤ score, medium ≤ score`
tiers `'high'`; with no thresholds supplied it behaves exactly as with the
defaults `low = 34, medium = 67`. -/
theorem get_risk_level_tier_boundaries :
    (∀ score : ℚ,
      get_risk_level score none = get_risk_level score (some ⟨some 34, some 67⟩)) ∧
    (∀ score lo med : ℚ, score < lo →
      get_risk_level score (some ⟨some lo, some med⟩) = .ok "low") ∧
    (∀ score lo med : ℚ, lo ≤ score → score < med →
      get_risk_level score (some ⟨some lo, some med⟩) = .ok "medium") ∧
    (∀ score lo med : ℚ, lo ≤ score → med ≤ score →
      get_risk_level score (some ⟨some lo, some med⟩) = .ok "high") := by
  refine ⟨fun score => rfl, ?_, ?_, ?_⟩
  · intro score lo med h
    simp [get_risk_level, h]
  · intro score lo med h1 h2
    simp [get_risk_level, not_lt.mpr h1, h2]
  · intro score lo med h1 h2
    simp [get_risk_level, not_lt.mpr h1, not_lt.mpr h2]

/-- Witness for `get_risk_level_tier_boundaries` at scores 10, 50, 90
against the default pair (34, 67). -/
theorem get_risk_level_tier_boundaries_witness :
    get_risk_level 10 (some ⟨some 34, some 67⟩) = .ok "low" ∧
    get_risk_level 50 (some ⟨some 34, some 67⟩) = .ok "medium" ∧
    get_risk_level 90 (some ⟨some 34, some 67⟩) = .ok "high" :=
  ⟨get_risk_level_tier_boundaries.2.1 10 34 67 (by norm_num),
   get_risk_level_tier_boundaries.2.2.1 50 34 67 (by norm_num) (by norm_num),
   get_risk_level_tier_boundaries.2.2.2 90 34 67 (by norm_num) (by norm_num)⟩

/-! ### Claim C2: diversity-bonus multiplier -/

/-- Five findings with five distinct technique types, as the detector
renders them (title-cased, space-separated), each with the static 0.8
confidence. -/
def c2techs : List Finding :=
  [⟨"Fear Mongering", "threat", 4/5, [(0, 6)]⟩,
   ⟨"Conspiracy Theory", "conspiracy", 4/5, [(7, 17)]⟩,
   ⟨"Loaded Language", "shocking", 4/5, [(18, 26)]⟩,
   ⟨"Call To Action", "act now", 4/5, [(27, 34)]⟩,
   ⟨"Us Vs Them", "they", 4/5, [(35, 39)]⟩]

/-- Closed form of `calculate_propaganda_risk_score` in the presence of at
least 3 distinct technique types: the 1.2 multiplier applies (the 1.4
branch is behind an `elif` and can only be reached when the count is *not*
≥ 3, so never). -/
theorem propaganda_risk_score_of_three_le (techs : List Finding)
    (h3 : 3 ≤ ((techs.map fun t => normTechName t.technique).dedup.length)) :
    calculate_propaganda_risk_score techs =
      min ((techs.map fun t =>
        technique_weight (normTechName t.technique) * t.confidence).sum * (12/10))
        100 := by
  have hne : ¬ techs.isEmpty = true := by
    cases techs with
    | nil => simp at h3
    | cons a l => simp
  unfold calculate_propaganda_risk_score
  rw [if_neg hne]
  dsimp only
  rw [if_pos h3]

/-- **C2, counterexample.** On an input with five distinct detected
technique types the code multiplies the severity-times-confidence sum (44)
by 1.2, giving 52.8 — not by 1.4: the `elif len >= 5` branch sits after
the `if len >= 3` branch and is unreachable. -/
theorem propaganda_risk_five_types_not_fourteen_tenths :
    (c2techs.map fun t => normTechName t.technique).dedup.length = 5 ∧
    (c2techs.map fun t =>
      technique_weight (normTechName t.technique) * t.confidence).sum = 44 ∧
    calculate_propaganda_risk_score c2techs = 44 * (12/10) ∧
    calculate_propaganda_risk_score c2techs ≠ 44 * (14/10) := by
  have h1 : normTechName "Fear Mongering" = "fear_mongering" := rfl
  have h2 : normTechName "Conspiracy Theory" = "conspiracy_theory" := rfl
  have h3 : normTechName "Loaded Language" = "loaded_language" := rfl
  have h4 : normTechName "Call To Action" = "call_to_action" := rfl
  have h5 : normTechName "Us Vs Them" = "us_vs_them" := rfl
  have hw1 : technique_weight "fear_mongering" = 15 := rfl
  have hw2 : technique_weight "conspiracy_theory" = 12 := rfl
  have hw3 : technique_weight "loaded_language" = 10 := rfl
  have hw4 : technique_weight "call_to_action" = 8 := rfl
  have hw5 : technique_weight "us_vs_them" = 10 := rfl
  have hsum : (c2techs.map fun t =>
      technique_weight (normTechName t.technique) * t.confidence).sum = 44 := by
    simp [c2techs, h1, h2, h3, h4, h5, hw1, hw2, hw3, hw4, hw5]
    norm_num
  have h52 : calculate_propaganda_risk_score c2techs = 44 * (12/10) := by
    rw [propaganda_risk_score_of_three_le c2techs (by decide), hsum]
    norm_num [min_def]
  refine ⟨by decide, hsum, h52, ?_⟩
  rw [h52]
  norm_num

/-- **C2, amended.** `calculate_propaganda_risk_score` multiplies the
severity-weight-times-confidence sum by 1.2 whenever 3 *or more* distinct
technique types are present — including 5 or more, for which the written
1.4 branch is unreachable, so the 1.4 multiplier is never applied. -/
theorem propaganda_risk_multiplier_always_twelve_tenths (techs : List Finding)
    (h3 : 3 ≤ ((techs.map fun t => normTechName t.technique).dedup.length)) :
    calculate_propaganda_risk_score techs =
      min ((techs.map fun t =>
        technique_weight (normTechName t.technique) * t.confidence).sum * (12/10))
        100 :=
  propaganda_risk_score_of_three_le techs h3

/-- Witness for `propaganda_risk_multiplier_always_twelve_tenths` at the
five-distinct-types input. -/
theorem propaganda_risk_multiplier_always_twelve_tenths_witness :
    3 ≤ ((c2techs.map fun t => normTechName t.technique).dedup.length) ∧
    calculate_propaganda_risk_score c2techs =
      min ((c2techs.map fun t =>
        technique_weight (normTechName t.technique) * t.confidence).sum * (12/10))
        100 :=
  ⟨by decide, propaganda_risk_multiplier_always_twelve_tenths c2techs (by decide)⟩

/-! ### Claim C1: the end-to-end pressure-tactics example -/

/-- The claim's input: `"everyone"` (bandwagon) and `"act now"`
(call-to-action) twice each. -/
def c1text : String := "everyone act now everyone act now"

/-- What the detector finds on `c1text` (checked below by `rfl`). -/
def c1findings : List Finding :=
  [⟨"Bandwagon", "everyone", 4/5, [(0, 8), (17, 25)]⟩,
   ⟨"Call To Action", "act now", 4/5, [(9, 16), (26, 33)]⟩]

/-- The emotional triggers found on `c1text` (checked below by `rfl`):
`"act now"` is a high-urgency marker and `"every"` (inside `"everyone"`)
an absolutist term; fear appeals and emotional language are empty. -/
def c1triggers : EmotionalTriggers :=
  ⟨[],
   [⟨"act now", some "high", "Creates high pressure for immediate action",
     [(9, 16), (26, 33)]⟩],
   [],
   [⟨"every", none, "Uses absolute statements to discourage critical thinking",
     [(0, 5), (17, 22)]⟩]⟩

/-- **C1, evaluation at the failing input.** The text holds `"everyone"`
and `"act now"` twice each and the propaganda-risk sub-score is 12 > 0 —
but the combination-risk bonus is 0, not ≥ 12: the detector stores
technique names space-separated (`"call to action"`) while the
`dangerous_combos` table matches underscore-separated names
(`"call_to_action"`), and `"urgency"` is not a technique type at all, so
the "pressure tactics" pair can never fire. -/
theorem pressure_tactics_pair_never_awarded :
    pyCount (pyLower c1text.data) "everyone".data = 2 ∧
    pyCount (pyLower c1text.data) "act now".data = 2 ∧
    (detect_propaganda_techniques c1text).map (fun t => t.technique) =
      ["Bandwagon", "Call To Action"] ∧
    containsSub (pyLower "Call To Action".data) "call_to_action".data = false ∧
    calculate_combination_risk (detect_propaganda_techniques c1text)
      (some (analyze_emotional_triggers c1text)) = 0 ∧
    ¬ (12 ≤ calculate_combination_risk (detect_propaganda_techniques c1text)
      (some (analyze_emotional_triggers c1text))) ∧
    calculate_propaganda_risk_score (detect_propaganda_techniques c1text) = 12 := by
  have hdet : detect_propaganda_techniques c1text = c1findings := rfl
  have hea : analyze_emotional_triggers c1text = c1triggers := rfl
  have hcomb : calculate_combination_risk c1findings (some c1triggers) = 0 := by
    have hsum : (dangerous_combos.map (fun c =>
        if (c.techniques.all fun ct =>
          ((c1findings.map fun t => pyLower t.technique.data)).any fun tn =>
            containsSub tn ct.data) then c.bonus else (0:ℚ))).sum = 0 := by
      apply List.sum_eq_zero
      intro x hx
      simp only [List.mem_map] at hx
      obtain ⟨c, hc, rfl⟩ := hx
      fin_cases hc <;> rw [if_neg (by decide)]
    unfold calculate_combination_risk
    rw [if_neg (by decide)]
    dsimp only
    rw [hsum]
    norm_num [c1triggers]
  have hrisk : calculate_propaganda_risk_score c1findings = 12 := by
    have h1 : normTechName "Bandwagon" = "bandwagon" := rfl
    have h2 : normTechName "Call To Action" = "call_to_action" := rfl
    have h3 : technique_weight "bandwagon" = 7 := rfl
    have h4 : technique_weight "call_to_action" = 8 := rfl
    have h5 : (["bandwagon", "call_to_action"] : List String).dedup =
        ["bandwagon", "call_to_action"] := by decide
    unfold calculate_propaganda_risk_score c1findings
    simp [h1, h2, h3, h4, h5]
    norm_num [min_def]
  rw [hdet, hea]
  refine ⟨rfl, rfl, rfl, rfl, hcomb, ?_, hrisk⟩
  rw [hcomb]
  norm_num

/-! ### Claim C7: overall score -/

theorem technique_weight_pos (name : String) : 0 < technique_weight name := by
  unfold technique_weight
  cases h : technique_weights.find? fun p => p.1 == name with
  | none => norm_num
  | some p =>
    have hmem := List.mem_of_find?_eq_some h
    fin_cases hmem <;> norm_num

theorem propaganda_risk_nonneg (techs : List Finding)
    (hconf : ∀ t ∈ techs, 0 ≤ t.confidence) :
    0 ≤ calculate_propaganda_risk_score techs := by
  unfold calculate_propaganda_risk_score
  split
  · norm_num
  · dsimp only
    have hsum : 0 ≤ (techs.map fun t =>
        technique_weight (normTechName t.technique) * t.confidence).sum := by
      apply List.sum_nonneg
      intro x hx
      simp only [List.mem_map] at hx
      obtain ⟨t, ht, rfl⟩ := hx
      exact mul_nonneg (le_of_lt (technique_weight_pos _)) (hconf t ht)
    apply le_min _ (by norm_num)
    split
    · nlinarith
    · split
      · nlinarith
      · exact hsum

theorem propaganda_risk_le_100 (techs : List Finding) :
    calculate_propaganda_risk_score techs ≤ 100 := by
  unfold calculate_propaganda_risk_score
  split
  · norm_num
  · dsimp only
    exact min_le_right _ _

theorem combination_risk_nonneg (techs : List Finding)
    (ea : Option EmotionalTriggers) :
    0 ≤ calculate_combination_risk techs ea := by
  unfold calculate_combination_risk
  split
  · norm_num
  · cases ea with
    | none => norm_num
    | some ea =>
      dsimp only
      apply le_min _ (by norm_num)
      apply add_nonneg
      · apply List.sum_nonneg
        intro x hx
        simp only [List.mem_map] at hx
        obtain ⟨c, hc, rfl⟩ := hx
        split
        · fin_cases hc <;> norm_num
        · norm_num
      · split_ifs <;> norm_num

theorem combination_risk_le_40 (techs : List Finding)
    (ea : Option EmotionalTriggers) :
    calculate_combination_risk techs ea ≤ 40 := by
  unfold calculate_combination_risk
  split
  · norm_num
  · cases ea with
    | none => norm_num
    | some ea =>
      dsimp only
      exact min_le_right _ _

theorem floor_le_roundHalfEven (x : ℚ) : ⌊x⌋ ≤ roundHalfEven x := by
  unfold roundHalfEven
  dsimp only
  split_ifs <;> omega

theorem roundHalfEven_le_ceil (x : ℚ) : roundHalfEven x ≤ ⌈x⌉ := by
  have hfl := Int.floor_le x
  have hstep : (⌊x⌋ : ℚ) < x → ⌊x⌋ + 1 ≤ ⌈x⌉ := by
    intro h
    rw [Int.add_one_le_iff, Int.lt_ceil]
    exact h
  unfold roundHalfEven
  dsimp only
  split_ifs with h1 h2 h3
  · exact Int.floor_le_ceil x
  · apply hstep
    nlinarith
  · exact Int.floor_le_ceil x
  · apply hstep
    nlinarith

theorem pyRound2_nonneg (x : ℚ) (hx : 0 ≤ x) : 0 ≤ pyRound2 x := by
  unfold pyRound2
  have h1 : (0 : ℤ) ≤ ⌊(100 : ℚ) * x⌋ := Int.floor_nonneg.mpr (by nlinarith)
  have h2 : (0 : ℤ) ≤ roundHalfEven (100 * x) :=
    le_trans h1 (floor_le_roundHalfEven _)
  apply div_nonneg _ (by norm_num)
  exact_mod_cast h2

theorem pyRound2_le_100 (x : ℚ) (hx : x ≤ 100) : pyRound2 x ≤ 100 := by
  unfold pyRound2
  have h1 : roundHalfEven (100 * x) ≤ ⌈(100 : ℚ) * x⌉ := roundHalfEven_le_ceil _
  have h2 : ⌈(100 : ℚ) * x⌉ ≤ 10000 := Int.ceil_le.mpr (by push_cast; nlinarith)
  rw [div_le_iff₀ (by norm_num : (0 : ℚ) < 100)]
  have : roundHalfEven (100 * x) ≤ 10000 := le_trans h1 h2
  calc (roundHalfEven (100 * x) : ℚ) ≤ 10000 := by exact_mod_cast this
  _ = 100 * 100 := by norm_num

/-- **C7.** For sub-scores within their declared intervals (emotional
intensity in [0,100], bias in [-100,100], urgency in [0,100], and any
findings with non-negative confidence), the overall score equals
`0.25*emotional + 0.15*|bias| + 0.20*urgency + 0.25*propaganda_risk +
0.15*combination_bonus` clamped to [0,100] and rounded to two decimals —
and in particular always lies in [0,100].  (The code clamps only from
above; the lower clamp is vacuous because the weighted sum of sub-scores
in range is non-negative, which the `max 0` form makes explicit.) -/
theorem overall_score_formula_and_bounds
    (e b u : ℚ) (techs : List Finding) (ea : Option EmotionalTriggers)
    (he0 : 0 ≤ e) (he1 : e ≤ 100) (hb0 : -100 ≤ b) (hb1 : b ≤ 100)
    (hu0 : 0 ≤ u) (hu1 : u ≤ 100)
    (hconf : ∀ t ∈ techs, 0 ≤ t.confidence) :
    calculate_overall_score e b u techs ea =
      pyRound2 (max 0 (min
        (e * (25/100) + |b| * (15/100) + u * (20/100) +
         calculate_propaganda_risk_score techs * (25/100) +
         calculate_combination_risk techs ea * (15/100)) 100)) ∧
    0 ≤ calculate_overall_score e b u techs ea ∧
    calculate_overall_score e b u techs ea ≤ 100 := by
  have hp0 := propaganda_risk_nonneg techs hconf
  have hc0 := combination_risk_nonneg techs ea
  have habs0 : 0 ≤ |b| := abs_nonneg b
  have hform0 : 0 ≤ e * (25/100) + |b| * (15/100) + u * (20/100) +
      calculate_propaganda_risk_score techs * (25/100) +
      calculate_combination_risk techs ea * (15/100) := by
    have h1 : 0 ≤ e * (25/100) := by nlinarith
    have h2 : 0 ≤ |b| * (15/100) := by nlinarith
    have h3 : 0 ≤ u * (20/100) := by nlinarith
    have h4 : 0 ≤ calculate_propaganda_risk_score techs * (25/100) := by nlinarith
    have h5 : 0 ≤ calculate_combination_risk techs ea * (15/100) := by nlinarith
    linarith
  have hmin0 : 0 ≤ min
      (e * (25/100) + |b| * (15/100) + u * (20/100) +
       calculate_propaganda_risk_score techs * (25/100) +
       calculate_combination_risk techs ea * (15/100)) 100 :=
    le_min hform0 (by norm_num)
  have hform : calculate_overall_score e b u techs ea =
      pyRound2 (min
        (e * (25/100) + |b| * (15/100) + u * (20/100) +
         calculate_propaganda_risk_score techs * (25/100) +
         calculate_combination_risk techs ea * (15/100)) 100) := rfl
  refine ⟨?_, ?_, ?_⟩
  · rw [max_eq_right hmin0]
    exact hform
  · rw [hform]
    exact pyRound2_nonneg _ hmin0
  · rw [hform]
    exact pyRound2_le_100 _ (min_le_right _ _)

/-- Witness for `overall_score_formula_and_bounds` at emotional 50,
bias -30, urgency 20, no findings. -/
theorem overall_score_formula_and_bounds_witness :
    calculate_overall_score 50 (-30) 20 [] none =
      pyRound2 (max 0 (min
        ((50 : ℚ) * (25/100) + |(-30 : ℚ)| * (15/100) + 20 * (20/100) +
         calculate_propaganda_risk_score [] * (25/100) +
         calculate_combination_risk [] none * (15/100)) 100)) ∧
    0 ≤ calculate_overall_score 50 (-30) 20 [] none ∧
    calculate_overall_score 50 (-30) 20 [] none ≤ 100 :=
  overall_score_formula_and_bounds 50 (-30) 20 [] none
    (by norm_num) (by norm_num) (by norm_num) (by norm_num)
    (by norm_num) (by norm_num) (fun t ht => absurd ht (List.not_mem_nil t))

/-! ### Claim C5: the LLM-response interpreter -/

/-- **C5, counterexample.** On the input `"a\x7bb\x7dc"` (a valid JSON
string literal containing a brace), the brace substring `\x7bb\x7d` fails
to parse, and the parser returns null right there — it does *not* fall
back to parsing the entire trimmed text, although that parse would succeed
(yielding the string `a\x7bb\x7dc`).  This refutes "if that substring
parse fails, it attempts to parse the entire trimmed text". -/
theorem parse_llm_response_no_whole_text_retry :
    pyFindCharIdx lbrace (pyStrip "\"a\x7bb\x7dc\"".data) = some 2 ∧
    pyRFindCharIdx rbrace (pyStrip "\"a\x7bb\x7dc\"".data) = some 4 ∧
    ((pyStrip "\"a\x7bb\x7dc\"".data).drop 2).take (4 + 1 - 2) = "\x7bb\x7d".data ∧
    jsonLoads (pyReplace (pyReplace "\x7bb\x7d".data "```json".data [])
      "```".data []) = none ∧
    jsonLoads (pyStrip "\"a\x7bb\x7dc\"".data) =
      some (.jstr "a\x7bb\x7dc".data) ∧
    parse_llm_response "\"a\x7bb\x7dc\"".data = none :=
  ⟨rfl, rfl, rfl, rfl, rfl, rfl⟩

/-- **C5, amended.** The parser first locates the first `\x7b` and the last
`\x7d` of the stripped text; when that region exists it strips code-fence
markers from it and returns the result of parsing the region alone — null
on a region parse error, with no whole-text retry; only when no such
region exists is the entire trimmed text parsed.  It never raises (it is a
total function into `Option`).  Prose with an embedded JSON object
extracts that object, and text with no JSON at all yields null. -/
theorem parse_llm_response_region_or_whole :
    (∀ content : List Char, pyFindCharIdx lbrace (pyStrip content) = none →
      parse_llm_response content = jsonLoads (pyStrip content)) ∧
    (∀ (content : List Char) (si ri : ℕ),
      pyFindCharIdx lbrace (pyStrip content) = some si →
      pyRFindCharIdx rbrace (pyStrip content) = some ri →
      si ≤ ri →
      parse_llm_response content =
        jsonLoads (pyReplace (pyReplace
          (((pyStrip content).drop si).take (ri + 1 - si))
          "```json".data []) "```".data [])) ∧
    parse_llm_response "prose... \x7b\"overall_risk_score\": 10\x7d trailing".data =
      some (.jobj [("overall_risk_score".data, .jnum 10)]) ∧
    parse_llm_response "not json at all".data = none := by
  refine ⟨?_, ?_, rfl, rfl⟩
  · intro content h
    unfold parse_llm_response
    cases h2 : pyRFindCharIdx rbrace (pyStrip content) <;> simp [h, h2]
  · intro content si ri h1 h2 hle
    unfold parse_llm_response
    simp only [h1, h2]
    rw [if_pos (by omega)]

/-- Witness for `parse_llm_response_region_or_whole` at the two spec
examples. -/
theorem parse_llm_response_region_or_whole_witness :
    parse_llm_response "not json at all".data =
      jsonLoads (pyStrip "not json at all".data) ∧
    parse_llm_response "prose... \x7b\"overall_risk_score\": 10\x7d trailing".data =
      jsonLoads (pyReplace (pyReplace
        (((pyStrip "prose... \x7b\"overall_risk_score\": 10\x7d trailing".data).drop 9).take
          (34 + 1 - 9))
        "```json".data []) "```".data []) :=
  ⟨parse_llm_response_region_or_whole.1 _ rfl,
   parse_llm_response_region_or_whole.2.1 _ 9 34 rfl rfl (by norm_num)⟩

/-! ### Claims C6 and C10: the provider gateway -/

theorem fallbackSweep_all_fail (prompt : String) : ∀ l : List LLMProvider,
    (∀ q ∈ l, ∀ r, q.generate prompt = .ok r → r.success = false) →
    fallbackSweep prompt l =
      ⟨false, some "All LLM providers failed", "LLM analysis unavailable",
       none, none, none⟩ := by
  intro l
  induction l with
  | nil => intro _; rfl
  | cons p rest ih =>
    intro h
    rw [fallbackSweep]
    cases hg : p.generate prompt with
    | error e =>
      exact ih fun q hq => h q (List.mem_cons_of_mem p hq)
    | ok r =>
      dsimp only
      rw [if_neg (by simp [h p (List.mem_cons_self p rest) r hg])]
      exact ih fun q hq => h q (List.mem_cons_of_mem p hq)

theorem fallbackSweep_first_success (prompt : String) :
    ∀ (pre : List LLMProvider) (p : LLMProvider) (post : List LLMProvider)
      (r : LLMResponse),
    (∀ q ∈ pre, ∀ r', q.generate prompt = .ok r' → r'.success = false) →
    p.generate prompt = .ok r → r.success = true →
    fallbackSweep prompt (pre ++ p :: post) =
      ⟨true, none, r.content, some r.provider, some r.model, some r.tokens_used⟩ := by
  intro pre
  induction pre with
  | nil =>
    intro p post r _ hg hs
    rw [List.nil_append, fallbackSweep, hg]
    dsimp only
    rw [if_pos hs]
  | cons q pre ih =>
    intro p post r hpre hg hs
    rw [List.cons_append, fallbackSweep]
    cases hq : q.generate prompt with
    | error e =>
      exact ih p post r (fun q' hq' => hpre q' (List.mem_cons_of_mem q hq')) hg hs
    | ok r' =>
      dsimp only
      rw [if_neg (by simp [hpre q (List.mem_cons_self q pre) r' hq])]
      exact ih p post r (fun q' hq' => hpre q' (List.mem_cons_of_mem q hq')) hg hs

/-- **C6, counterexample.** When the available list is exhausted (here: one
available provider whose response fails), the failure envelope's content is
`"LLM analysis unavailable"` — not the empty string the claim asserts for
the exhausted case. -/
theorem generate_with_fallback_exhausted_content_not_empty :
    (generate_with_fallback
      [GroqProvider (some "k")
        ⟨"", "groq", "llama3-8b-8192", 0, false, some "API error: 500"⟩]
      "x").success = false ∧
    (generate_with_fallback
      [GroqProvider (some "k")
        ⟨"", "groq", "llama3-8b-8192", 0, false, some "API error: 500"⟩]
      "x").content = "LLM analysis unavailable" ∧
    (generate_with_fallback
      [GroqProvider (some "k")
        ⟨"", "groq", "llama3-8b-8192", 0, false, some "API error: 500"⟩]
      "x").content ≠ "" :=
  ⟨rfl, rfl, by decide⟩

/-- **C6, amended.** The gateway fallback iterates exactly the available
providers in their registry order: with no available provider it returns
the `"No LLM providers available"` failure envelope, whose content *is*
empty; the first available provider returning a successful response has
its envelope returned immediately, failed responses and raised exceptions
advancing the sweep; and when every available provider fails the sweep is
exhausted and returns the `"All LLM providers failed"` envelope — whose
content is `"LLM analysis unavailable"`, not the empty string. -/
theorem generate_with_fallback_gateway_spec :
    (∀ (ps : List LLMProvider) (prompt : String),
      get_available_providers ps = [] →
      generate_with_fallback ps prompt =
        ⟨false, some "No LLM providers available", "", none, none, none⟩) ∧
    (∀ (ps : List LLMProvider) (prompt : String),
      get_available_providers ps ≠ [] →
      (∀ q ∈ get_available_providers ps, ∀ r, q.generate prompt = .ok r →
        r.success = false) →
      generate_with_fallback ps prompt =
        ⟨false, some "All LLM providers failed", "LLM analysis unavailable",
         none, none, none⟩) ∧
    (∀ (ps : List LLMProvider) (prompt : String) (pre : List LLMProvider)
      (p : LLMProvider) (post : List LLMProvider) (r : LLMResponse),
      get_available_providers ps = pre ++ p :: post →
      (∀ q ∈ pre, ∀ r', q.generate prompt = .ok r' → r'.success = false) →
      p.generate prompt = .ok r → r.success = true →
      generate_with_fallback ps prompt =
        ⟨true, none, r.content, some r.provider, some r.model,
         some r.tokens_used⟩) := by
  refine ⟨?_, ?_, ?_⟩
  · intro ps prompt h
    unfold generate_with_fallback
    rw [if_pos (by simp [h])]
  · intro ps prompt hne h
    unfold generate_with_fallback
    rw [if_neg (by simpa [List.isEmpty_iff] using hne)]
    exact fallbackSweep_all_fail prompt _ h
  · intro ps prompt pre p post r hsplit hpre hg hs
    unfold generate_with_fallback
    rw [if_neg (by simp [hsplit])]
    rw [hsplit]
    exact fallbackSweep_first_success prompt pre p post r hpre hg hs

/-- Witness for `generate_with_fallback_gateway_spec`: an empty registry,
a registry with one failing provider, and a failing provider followed by
the mock provider. -/
theorem generate_with_fallback_gateway_spec_witness :
    generate_with_fallback [] "x" =
      ⟨false, some "No LLM providers available", "", none, none, none⟩ ∧
    generate_with_fallback
      [GroqProvider (some "k")
        ⟨"", "groq", "llama3-8b-8192", 0, false, some "API error: 500"⟩] "x" =
      ⟨false, some "All LLM providers failed", "LLM analysis unavailable",
       none, none, none⟩ ∧
    generate_with_fallback
      [GroqProvider (some "k")
        ⟨"", "groq", "llama3-8b-8192", 0, false, some "API error: 500"⟩,
       MockLLMProvider] "x" =
      ⟨true, none,
       "This appears to be a factual statement with minimal bias indicators.",
       some "mock", some "mock-llm", some 0⟩ := by
  have hfail : ∀ q ∈ [GroqProvider (some "k")
        ⟨"", "groq", "llama3-8b-8192", 0, false, some "API error: 500"⟩],
      ∀ r, q.generate "x" = .ok r → r.success = false := by
    intro q hq r hr
    simp only [List.mem_singleton] at hq
    subst hq
    simp only [GroqProvider] at hr
    injection hr with h
    rw [← h]
  refine ⟨generate_with_fallback_gateway_spec.1 [] "x" rfl, ?_, ?_⟩
  · exact generate_with_fallback_gateway_spec.2.1 _ "x"
      (by simp [get_available_providers, GroqProvider]) hfail
  · exact generate_with_fallback_gateway_spec.2.2
      [GroqProvider (some "k")
        ⟨"", "groq", "llama3-8b-8192", 0, false, some "API error: 500"⟩,
       MockLLMProvider] "x"
      [GroqProvider (some "k")
        ⟨"", "groq", "llama3-8b-8192", 0, false, some "API error: 500"⟩]
      MockLLMProvider [] _ rfl hfail rfl rfl

theorem fallbackSweep_ne_no_providers (prompt : String) :
    ∀ l : List LLMProvider,
      fallbackSweep prompt l ≠
        ⟨false, some "No LLM providers available", "", none, none, none⟩ := by
  intro l
  induction l with
  | nil =>
    have hc : fallbackSweep prompt [] =
        ⟨false, some "All LLM providers failed", "LLM analysis unavailable",
         none, none, none⟩ := rfl
    rw [hc]
    intro h
    exact absurd (congrArg Envelope.content h) (by decide)
  | cons p rest ih =>
    rw [fallbackSweep]
    cases hg : p.generate prompt with
    | error e => exact ih
    | ok r =>
      dsimp only
      split
      · intro h
        simp [Envelope.mk.injEq] at h
      · exact ih

/-- **C10.** The mock provider's `is_available()` is true in every state,
it is the last element of the service's fixed provider registry, so the
available-provider list always contains it and is never empty: the
`"No LLM providers available"` branch of the gateway fallback is
unreachable for the service's registry (for every combination of API keys
and network outcomes), and every fallback sweep starts on a non-empty
provider list. -/
theorem mock_provider_keeps_gateway_reachable :
    ∀ (gk ork : Option String) (gnet onet : LLMResponse) (prompt : String),
      MockLLMProvider.is_available = true ∧
      (llmServiceProviders gk ork gnet onet).getLast? = some MockLLMProvider ∧
      MockLLMProvider ∈ get_available_providers (llmServiceProviders gk ork gnet onet) ∧
      get_available_providers (llmServiceProviders gk ork gnet onet) ≠ [] ∧
      generate_with_fallback (llmServiceProviders gk ork gnet onet) prompt ≠
        ⟨false, some "No LLM providers available", "", none, none, none⟩ := by
  intro gk ork gnet onet prompt
  have hmem : MockLLMProvider ∈
      get_available_providers (llmServiceProviders gk ork gnet onet) :=
    List.mem_filter.mpr ⟨by simp [llmServiceProviders], rfl⟩
  have hne : get_available_providers (llmServiceProviders gk ork gnet onet) ≠ [] :=
    List.ne_nil_of_mem hmem
  refine ⟨rfl, rfl, hmem, hne, ?_⟩
  unfold generate_with_fallback
  rw [if_neg (by simpa [List.isEmpty_iff] using hne)]
  exact fallbackSweep_ne_no_providers prompt _

end Detector
